import Mathlib

/-!
# Predict frontend: gateway and view-state controllers

A shallow embedding of `frontend/src/services/api.js` and of the handlers of the
pages `Dashboard.jsx`, `StockPredictions.jsx` and `SportsPredictions.jsx`.

* A React component's `useState` cells become the fields of a state record.
* An `async` handler becomes a function from the state before the call and the
  outcomes of the promises it awaits to the state after it has settled, together
  with the gateway calls it issued and the `alert`s it raised.
* A rejected promise is `Except.error`, a fulfilled one `Except.ok`.
* JavaScript truthiness (`x ? a : b`, `x || b`, `!x`) is modelled explicitly: `null`,
  `undefined` and the empty string are falsy.
-/

namespace Predict

/-! ## JavaScript values -/

/-- Numbers carried in payloads. The embedded code only copies them. -/
abbrev JsNumber := Rat

/-- Truthiness of a value that is either a string or `null`/`undefined`:
the empty string and the absent value are falsy. -/
def truthy : Option String → Bool
  | some s => s != ""
  | none => false

/-- The expression `a || b` for a string-or-absent `a` and a string `b`. -/
def orElse (a : Option String) (b : String) : String :=
  match a with
  | some s => if s != "" then s else b
  | none => b

/-- The code points removed by `String.prototype.trim`: ECMAScript `WhiteSpace`
(TAB, VT, FF, SP, NBSP, ZWNBSP and the category Zs) and `LineTerminator`
(LF, CR, LS, PS). -/
def isJsWhiteSpace (c : Char) : Bool :=
  let n := c.toNat
  n == 0x09 || n == 0x0A || n == 0x0B || n == 0x0C || n == 0x0D || n == 0x20 ||
  n == 0xA0 || n == 0x1680 || (0x2000 ≤ n && n ≤ 0x200A) || n == 0x2028 ||
  n == 0x2029 || n == 0x202F || n == 0x205F || n == 0x3000 || n == 0xFEFF

/-- The method `String.prototype.trim`: white space is dropped at both ends. -/
def jsTrim (s : String) : String :=
  String.mk ((s.data.dropWhile isJsWhiteSpace).reverse.dropWhile isJsWhiteSpace).reverse

/-- A string that is empty or made of white space only. -/
def isBlank (s : String) : Prop := ∀ c ∈ s.data, isJsWhiteSpace c = true

/-! ## Data model -/

/-- Body of an error response; `detail` is the optional user-facing text. -/
structure ErrorBody where
  detail : Option String
deriving DecidableEq, Repr

/-- The `response` object of a failed request. -/
structure ErrorResponse where
  status : Nat
  data : Option ErrorBody
deriving DecidableEq, Repr

/-- A rejection raised by a gateway call: an HTTP error carries `response`, a
transport failure or a failed token fetch does not. -/
structure GatewayError where
  message : String
  response : Option ErrorResponse
deriving DecidableEq, Repr

/-- The expression `err.response?.data?.detail`. -/
def GatewayError.detail (err : GatewayError) : Option String :=
  match err.response with
  | none => none
  | some r =>
    match r.data with
    | none => none
    | some d => d.detail

structure StockPrediction where
  symbol : String
  direction : String
  probability : JsNumber
  confidence : JsNumber
  current_price : Option JsNumber
  price_target : Option JsNumber
  model_version : String
deriving DecidableEq, Repr

structure SportsPrediction where
  event_id : String
  team : Option String
  outcome : String
  probability : JsNumber
  confidence : JsNumber
  odds : Option JsNumber
  implied_probability : Option JsNumber
deriving DecidableEq, Repr

/-- The embedded `prediction` object of a pick. -/
inductive Prediction where
  | stock (p : StockPrediction)
  | sports (p : SportsPrediction)
deriving DecidableEq, Repr

/-- The object literal handed to `api.savePick`. -/
structure PickPayload where
  prediction_type : String
  symbol_or_event : String
  prediction : Prediction
  confidence : JsNumber
deriving DecidableEq, Repr

/-- A pick as returned by the service. -/
structure Pick where
  id : String
  prediction_type : String
  symbol_or_event : String
  prediction : Prediction
  confidence : JsNumber
  created_at : String
deriving DecidableEq, Repr

structure AccuracyMetric where
  prediction_type : String
  accuracy_rate : JsNumber
  correct_predictions : Nat
  total_predictions : Nat
deriving DecidableEq, Repr

/-! ## `services/api.js` -/

/-- The constant `API_URL`: `import.meta.env.VITE_API_URL || 'http://localhost:8000'`. -/
def API_URL (VITE_API_URL : Option String) : String :=
  orElse VITE_API_URL "http://localhost:8000"

/-- The configuration object passed to `axios.create`. `headers` lists the keys of
the object literal in source order with their values. -/
structure ApiClient where
  baseURL : String
  headers : List (String × String)
deriving DecidableEq, Repr

/-- Value of the header `name` in a client, if the header set has that key. -/
def ApiClient.header (client : ApiClient) (name : String) : Option String :=
  (client.headers.find? (fun kv => kv.1 == name)).map (fun kv => kv.2)

/-- A token supplier: an effectful `getToken` over its own state `σ`, which
fulfils with a token or `null`, or rejects. -/
abbrev TokenSupplier (σ : Type) := σ → Except GatewayError (Option String) × σ

/-- The value given to the key `Authorization`: the conditional
`token ? 'Bearer ' + token : ''` (a template literal in the source). -/
def authorizationValue (token : Option String) : String :=
  match token with
  | some t => if t != "" then "Bearer " ++ t else ""
  | none => ""

/-- The function `getApiClient`: awaits `getToken()` once and builds the client. -/
def getApiClient {σ : Type} (VITE_API_URL : Option String) (getToken : TokenSupplier σ)
    (s : σ) : Except GatewayError ApiClient × σ :=
  match getToken s with
  | (Except.error e, s') => (Except.error e, s')
  | (Except.ok token, s') =>
    (Except.ok
      { baseURL := API_URL VITE_API_URL
        headers :=
          [("Content-Type", "application/json"),
           ("Authorization", authorizationValue token)] },
     s')

inductive HttpMethod where
  | GET
  | POST
deriving DecidableEq, Repr

/-- One call on an axios client: `client.get(url)` or `client.post(url, body)`. -/
structure HttpRequest where
  client : ApiClient
  method : HttpMethod
  url : String
  body : Option PickPayload
deriving DecidableEq, Repr

/-- What one gateway operation did: the value it settled with (`response.data` or
the rejection), the HTTP requests it issued, and the supplier state it left. -/
structure GatewayRun (ρ σ : Type) where
  result : Except GatewayError ρ
  requests : List HttpRequest
  supplier : σ

/-- The common shape of every operation of `api`: await `getApiClient(getToken)`,
issue one request on the client, return `response.data`. The transport `http`
gives the settled outcome of a request. -/
def callApi {ρ σ : Type} (VITE_API_URL : Option String) (http : HttpRequest → Except GatewayError ρ)
    (method : HttpMethod) (url : String) (body : Option PickPayload)
    (getToken : TokenSupplier σ) (s : σ) : GatewayRun ρ σ :=
  match getApiClient VITE_API_URL getToken s with
  | (Except.error e, s') => { result := Except.error e, requests := [], supplier := s' }
  | (Except.ok client, s') =>
    let req : HttpRequest := { client := client, method := method, url := url, body := body }
    { result := http req, requests := [req], supplier := s' }

/-- The operation `api.getStockPrediction`. -/
def api.getStockPrediction {ρ σ : Type} (VITE_API_URL : Option String)
    (http : HttpRequest → Except GatewayError ρ) (symbol : String)
    (getToken : TokenSupplier σ) (s : σ) : GatewayRun ρ σ :=
  callApi VITE_API_URL http HttpMethod.GET ("/stocks/predictions?symbol=" ++ symbol) none getToken s

/-- The operation `api.getSportsPredictions`; an omitted `sport` is `basketball_nba`. -/
def api.getSportsPredictions {ρ σ : Type} (VITE_API_URL : Option String)
    (http : HttpRequest → Except GatewayError ρ) (sport : Option String)
    (getToken : TokenSupplier σ) (s : σ) : GatewayRun ρ σ :=
  callApi VITE_API_URL http HttpMethod.GET
    ("/sports/predictions?sport=" ++ sport.getD "basketball_nba") none getToken s

/-- The operation `api.savePick`. -/
def api.savePick {ρ σ : Type} (VITE_API_URL : Option String)
    (http : HttpRequest → Except GatewayError ρ) (pick : PickPayload)
    (getToken : TokenSupplier σ) (s : σ) : GatewayRun ρ σ :=
  callApi VITE_API_URL http HttpMethod.POST "/user/picks" (some pick) getToken s

/-- The operation `api.getUserPicks`. -/
def api.getUserPicks {ρ σ : Type} (VITE_API_URL : Option String)
    (http : HttpRequest → Except GatewayError ρ)
    (getToken : TokenSupplier σ) (s : σ) : GatewayRun ρ σ :=
  callApi VITE_API_URL http HttpMethod.GET "/user/picks" none getToken s

/-- The URL chosen by `api.getAccuracyMetrics`:
`predictionType ? '/analytics/accuracy?prediction_type=' + predictionType : '/analytics/accuracy'`.
An omitted argument takes the default `null`. -/
def accuracyUrl (predictionType : Option String) : String :=
  match predictionType with
  | some t => if t != "" then "/analytics/accuracy?prediction_type=" ++ t else "/analytics/accuracy"
  | none => "/analytics/accuracy"

/-- The operation `api.getAccuracyMetrics`. -/
def api.getAccuracyMetrics {ρ σ : Type} (VITE_API_URL : Option String)
    (http : HttpRequest → Except GatewayError ρ) (predictionType : Option String)
    (getToken : TokenSupplier σ) (s : σ) : GatewayRun ρ σ :=
  callApi VITE_API_URL http HttpMethod.GET (accuracyUrl predictionType) none getToken s

/-- One invocation of one of the five gateway operations, with its arguments
other than `getToken`; an omitted `sport` or `predictionType` is `none`. -/
inductive Operation where
  | getStockPrediction (symbol : String)
  | getSportsPredictions (sport : Option String)
  | savePick (pick : PickPayload)
  | getUserPicks
  | getAccuracyMetrics (predictionType : Option String)
deriving DecidableEq, Repr

/-- The invocation `op` run on the `api` object. -/
def api.perform {ρ σ : Type} (VITE_API_URL : Option String)
    (http : HttpRequest → Except GatewayError ρ) (op : Operation)
    (getToken : TokenSupplier σ) (s : σ) : GatewayRun ρ σ :=
  match op with
  | Operation.getStockPrediction symbol => api.getStockPrediction VITE_API_URL http symbol getToken s
  | Operation.getSportsPredictions sport => api.getSportsPredictions VITE_API_URL http sport getToken s
  | Operation.savePick pick => api.savePick VITE_API_URL http pick getToken s
  | Operation.getUserPicks => api.getUserPicks VITE_API_URL http getToken s
  | Operation.getAccuracyMetrics predictionType =>
    api.getAccuracyMetrics VITE_API_URL http predictionType getToken s

/-- A supplier instrumented with the number of times it has been invoked. -/
def counting {σ : Type} (getToken : TokenSupplier σ) : TokenSupplier (σ × Nat) :=
  fun sn => ((getToken sn.1).1, ((getToken sn.1).2, sn.2 + 1))

/-- The `Authorization` header values of the requests a gateway run issued. -/
def GatewayRun.authorizations {ρ σ : Type} (run : GatewayRun ρ σ) : List (Option String) :=
  run.requests.map (fun req => req.client.header "Authorization")

/-! ## The gateway as seen by a page -/

/-- A call a page makes on the `api` object (the `getToken` argument is the same
in every call and is left out). -/
inductive GatewayCall where
  | getStockPrediction (symbol : String)
  | getSportsPredictions (sport : String)
  | savePick (pick : PickPayload)
  | getUserPicks
  | getAccuracyMetrics (predictionType : Option String)
deriving DecidableEq, Repr

/-- The settled outcome of each operation of `api`, as a page observes it. -/
structure Gateway where
  getStockPrediction : String → Except GatewayError StockPrediction
  getSportsPredictions : String → Except GatewayError (List SportsPrediction)
  savePick : PickPayload → Except GatewayError Pick
  getUserPicks : Except GatewayError (List Pick)
  getAccuracyMetrics : Option String → Except GatewayError (List AccuracyMetric)

/-- What a handler did: the component state once it has settled, the gateway
calls it issued and the `alert` texts it raised, both in order. -/
structure Run (S : Type) where
  state : S
  calls : List GatewayCall
  alerts : List String

/-! ## Pages/Dashboard.jsx -/

namespace Dashboard


/-- The three `useState` cells of `Dashboard`. -/
structure DashboardState where
  accuracyData : List AccuracyMetric
  userPicks : List Pick
  loading : Bool
deriving DecidableEq, Repr

/-- The initial values of the `useState` cells. -/
def DashboardState.init : DashboardState :=
  { accuracyData := [], userPicks := [], loading := true }

/-- The combinator `Promise.all` on two promises: fulfilled with both values when
both fulfil, rejected as soon as one rejects. -/
def promiseAll {α β : Type} (a : Except GatewayError α) (b : Except GatewayError β) :
    Except GatewayError (α × β) :=
  match a, b with
  | Except.ok x, Except.ok y => Except.ok (x, y)
  | Except.error e, _ => Except.error e
  | Except.ok _, Except.error e => Except.error e

/-- The handler `loadDashboardData`. Both gateway calls are issued before the
`await`; the `catch` branch only writes to the console; `finally` clears `loading`. -/
def loadDashboardData (api : Gateway) (st : DashboardState) : Run DashboardState :=
  let st1 := { st with loading := true }
  let calls := [GatewayCall.getAccuracyMetrics none, GatewayCall.getUserPicks]
  let st2 :=
    match promiseAll (api.getAccuracyMetrics none) api.getUserPicks with
    | Except.ok (accuracy, picks) =>
      { st1 with accuracyData := accuracy, userPicks := picks.take 5 }
    | Except.error _ => st1
  { state := { st2 with loading := false }, calls := calls, alerts := [] }

end Dashboard

/-! ## Pages/StockPredictions.jsx -/

namespace StockPredictions

/-- The four `useState` cells of `StockPredictions`. -/
structure StockState where
  symbol : String
  prediction : Option StockPrediction
  loading : Bool
  error : Option String
deriving DecidableEq, Repr

/-- The initial values of the `useState` cells. -/
def StockState.init : StockState :=
  { symbol := "", prediction := none, loading := false, error := none }

/-- The handler `handleSearch`. `toUpperCase` is `String.prototype.toUpperCase`,
whose case tables are not part of the repository. `e.preventDefault()` touches
neither the state nor the gateway and is left out. The submit button of the form
is `disabled` while `loading`, so searches do not overlap and the handler is
embedded as one step. -/
def handleSearch (toUpperCase : String → String) (api : Gateway) (st : StockState) :
    Run StockState :=
  if jsTrim st.symbol = "" then
    { state := st, calls := [], alerts := [] }
  else
    let st1 := { st with loading := true, error := none, prediction := none }
    let st2 :=
      match api.getStockPrediction (toUpperCase st.symbol) with
      | Except.ok data => { st1 with prediction := some data }
      | Except.error err =>
        { st1 with error := some (orElse err.detail "Failed to get prediction") }
    { state := { st2 with loading := false }
      calls := [GatewayCall.getStockPrediction (toUpperCase st.symbol)]
      alerts := [] }

/-- The object literal built by `handleSavePick` for a stock prediction. -/
def stockPick (prediction : StockPrediction) : PickPayload :=
  { prediction_type := "stock"
    symbol_or_event := prediction.symbol
    prediction := Prediction.stock prediction
    confidence := prediction.confidence }

/-- The handler `handleSavePick` of the stock page. -/
def handleSavePick (api : Gateway) (st : StockState) : Run StockState :=
  match st.prediction with
  | none => { state := st, calls := [], alerts := [] }
  | some prediction =>
    match api.savePick (stockPick prediction) with
    | Except.ok _ =>
      { state := st
        calls := [GatewayCall.savePick (stockPick prediction)]
        alerts := ["Pick saved successfully!"] }
    | Except.error _ =>
      { state := st
        calls := [GatewayCall.savePick (stockPick prediction)]
        alerts := ["Failed to save pick"] }

end StockPredictions

/-! ## Pages/SportsPredictions.jsx -/

namespace SportsPredictions

/-- The four `useState` cells of `SportsPredictions`. -/
structure SportsState where
  sport : String
  predictions : List SportsPrediction
  loading : Bool
  error : Option String
deriving DecidableEq, Repr

/-- The initial values of the `useState` cells. -/
def SportsState.init : SportsState :=
  { sport := "basketball_nba", predictions := [], loading := false, error := none }

/-- The part of `loadPredictions` that runs before the `await`. The handler is
embedded in two parts, this one and `loadPredictionsSettle`, because the
`select` stays enabled while a load is in flight: other loads may start and
settle between the two parts (see `Page.step`). -/
def loadPredictionsBegin (st : SportsState) : SportsState :=
  { st with loading := true, error := none, predictions := [] }

/-- The part of `loadPredictions` that runs once the awaited call has settled:
the `try` continuation or the `catch` branch, then `finally`. The setters act on
the state current at that moment. -/
def loadPredictionsSettle (st : SportsState)
    (outcome : Except GatewayError (List SportsPrediction)) : SportsState :=
  let st2 :=
    match outcome with
    | Except.ok data => { st with predictions := data }
    | Except.error err =>
      { st with error := some (orElse err.detail "Failed to load predictions") }
  { st2 with loading := false }

/-- The mounted page: the visible state and the loads whose response is still
awaited, oldest first, each with the sport it asked for. -/
structure Page where
  view : SportsState
  inflight : List String
  calls : List GatewayCall
deriving DecidableEq, Repr

/-- What can happen to the mounted page: the user picks an option of the
`select`, clicks Refresh, or the response of the in-flight load at position `i`
settles. -/
inductive Event where
  | selectSport (sport : String)
  | refresh
  | settle (i : Nat) (outcome : Except GatewayError (List SportsPrediction))

/-- A call of `loadPredictions` up to its `await`. -/
def Page.trigger (p : Page) : Page :=
  { view := loadPredictionsBegin p.view
    inflight := p.inflight ++ [p.view.sport]
    calls := p.calls ++ [GatewayCall.getSportsPredictions p.view.sport] }

/-- The page after its first render: `useEffect` has called `loadPredictions`. -/
def Page.mount : Page :=
  Page.trigger { view := SportsState.init, inflight := [], calls := [] }

/-- One event. `setSport` with the current value re-renders nothing, so the
effect on `[sport]` does not run; the Refresh button is `disabled` while
`loading`; a settling load runs the rest of `loadPredictions` whatever was
triggered since. -/
def Page.step (p : Page) : Event → Page
  | Event.selectSport sport =>
    if sport = p.view.sport then p
    else Page.trigger { p with view := { p.view with sport := sport } }
  | Event.refresh => if p.view.loading then p else Page.trigger p
  | Event.settle i outcome =>
    if i < p.inflight.length then
      { p with view := loadPredictionsSettle p.view outcome, inflight := p.inflight.eraseIdx i }
    else p

/-- A sequence of events, in order. -/
def Page.run (p : Page) (events : List Event) : Page :=
  events.foldl Page.step p

end SportsPredictions

/-! ## Sample data -/

/-- A stock prediction for AAPL. -/
def sampleStock : StockPrediction :=
  { symbol := "AAPL", direction := "up", probability := 7 / 10, confidence := 41 / 50
    current_price := some 190, price_target := none, model_version := "v1" }

/-- A pick numbered `n`. -/
def samplePick (n : Nat) : Pick :=
  { id := toString n, prediction_type := "stock", symbol_or_event := "AAPL"
    prediction := Prediction.stock sampleStock, confidence := 41 / 50
    created_at := "2024-01-01" }

/-- An accuracy metric for stock predictions. -/
def sampleMetric : AccuracyMetric :=
  { prediction_type := "stock", accuracy_rate := 3 / 4, correct_predictions := 3
    total_predictions := 4 }

/-- A sports prediction for the event `event`. -/
def sampleSports (event : String) : SportsPrediction :=
  { event_id := event, team := none, outcome := "home", probability := 3 / 5
    confidence := 1 / 2, odds := none, implied_probability := none }

/-- A rejection without a response: a transport failure. -/
def networkError : GatewayError :=
  { message := "Network Error", response := none }

/-- An HTTP error whose body carries `detail`. -/
def httpError (status : Nat) (detail : Option String) : GatewayError :=
  { message := "Request failed", response := some { status := status, data := some { detail := detail } } }

/-- A gateway on which every operation fulfils; `picks` is what `getUserPicks` returns. -/
def okGateway (picks : List Pick) : Gateway :=
  { getStockPrediction := fun symbol => Except.ok { sampleStock with symbol := symbol }
    getSportsPredictions := fun sport => Except.ok [sampleSports sport]
    savePick := fun _ => Except.ok (samplePick 0)
    getUserPicks := Except.ok picks
    getAccuracyMetrics := fun _ => Except.ok [sampleMetric] }

/-- A gateway on which every operation rejects with `err`. -/
def failingGateway (err : GatewayError) : Gateway :=
  { getStockPrediction := fun _ => Except.error err
    getSportsPredictions := fun _ => Except.error err
    savePick := fun _ => Except.error err
    getUserPicks := Except.error err
    getAccuracyMetrics := fun _ => Except.error err }

/-- Seven picks, numbered 0 to 6. -/
def sevenPicks : List Pick := (List.range 7).map samplePick

/-- A gateway whose two dashboard sources settle as given; the rest fulfils. -/
def dashboardGateway (accuracy : Except GatewayError (List AccuracyMetric))
    (picks : Except GatewayError (List Pick)) : Gateway :=
  { okGateway [] with getUserPicks := picks, getAccuracyMetrics := fun _ => accuracy }

/-- A token supplier that always fulfils with `token`. -/
def constSupplier (token : Option String) : TokenSupplier Unit :=
  fun s => (Except.ok token, s)

/-- A session whose tokens are handed out in turn, one per invocation, and
whose `getToken` rejects once they are used up. -/
def scriptedSupplier : TokenSupplier (List (Option String)) :=
  fun tokens =>
    match tokens with
    | [] => (Except.error { message := "No session", response := none }, [])
    | token :: rest => (Except.ok token, rest)

/-- A transport that answers every request with one accuracy metric. -/
def metricsHttp : HttpRequest → Except GatewayError (List AccuracyMetric) :=
  fun _ => Except.ok [sampleMetric]

/-- Upper-casing of the ASCII letters, a stand-in for `toUpperCase` on
ticker symbols. -/
def asciiUpper (s : String) : String :=
  String.mk (s.data.map Char.toUpper)

/-- A stock page whose input holds `symbol` and which shows nothing yet. -/
def stockPageWith (symbol : String) : StockPredictions.StockState :=
  { StockPredictions.StockState.init with symbol := symbol }

instance (s : String) : Decidable (isBlank s) :=
  inferInstanceAs (Decidable (∀ c ∈ s.data, isJsWhiteSpace c = true))

/-- NFL is selected, then NHL, while both loads are in flight; the NHL response
arrives first and the NFL response last. -/
def raceEvents : List SportsPredictions.Event :=
  [ SportsPredictions.Event.settle 0 (Except.ok [sampleSports "nba-1"]),
    SportsPredictions.Event.selectSport "americanfootball_nfl",
    SportsPredictions.Event.selectSport "icehockey_nhl",
    SportsPredictions.Event.settle 1 (Except.ok [sampleSports "nhl-1"]),
    SportsPredictions.Event.settle 0 (Except.ok [sampleSports "nfl-1"]) ]

/-- NFL is selected, then NHL, while both loads are in flight; the NHL response
arrives first and succeeds, the NFL response arrives last and fails. -/
def staleFailureEvents : List SportsPredictions.Event :=
  [ SportsPredictions.Event.settle 0 (Except.ok [sampleSports "nba-1"]),
    SportsPredictions.Event.selectSport "americanfootball_nfl",
    SportsPredictions.Event.selectSport "icehockey_nhl",
    SportsPredictions.Event.settle 1 (Except.ok [sampleSports "nhl-1"]),
    SportsPredictions.Event.settle 0 (Except.error (httpError 503 (some "Odds provider down"))) ]

/-! ## Properties of `Dashboard.loadDashboardData` -/

open Dashboard StockPredictions SportsPredictions

/-- C1. When `getAccuracyMetrics` and `getUserPicks` both succeed, with `A` and `P`,
`loadDashboardData` sets `userPicks` to the first `min 5 |P|` elements of `P` in
their order (length 5 when `|P| ≥ 5`, `|P|` otherwise) and `accuracyData` to
the whole of `A`. -/
theorem dashboard_truncation_law (api : Gateway) (st : DashboardState)
    (A : List AccuracyMetric) (P : List Pick)
    (hA : api.getAccuracyMetrics none = Except.ok A) (hP : api.getUserPicks = Except.ok P) :
    (loadDashboardData api st).state.userPicks = P.take (min 5 P.length) ∧
    (∀ i, i < min 5 P.length → (loadDashboardData api st).state.userPicks[i]? = P[i]?) ∧
    (loadDashboardData api st).state.userPicks.length = min 5 P.length ∧
    (5 ≤ P.length → (loadDashboardData api st).state.userPicks.length = 5) ∧
    (P.length < 5 → (loadDashboardData api st).state.userPicks.length = P.length) ∧
    (loadDashboardData api st).state.accuracyData = A := by
  have hstate : (loadDashboardData api st).state =
      { accuracyData := A, userPicks := P.take 5, loading := false } := by
    simp [loadDashboardData, promiseAll, hA, hP]
  have htake : P.take (min 5 P.length) = P.take 5 := by
    rcases Nat.le_total 5 P.length with h | h
    · rw [Nat.min_eq_left h]
    · rw [Nat.min_eq_right h, List.take_length, List.take_of_length_le h]
  rw [hstate]
  refine ⟨htake.symm, ?_, ?_, ?_, ?_, rfl⟩
  · intro i hi
    have h5 : i < 5 := lt_of_lt_of_le hi (Nat.min_le_left _ _)
    simp [List.getElem?_take, h5]
  · simp [List.length_take]
  · intro h
    simp [List.length_take, h]
  · intro h
    simp [List.length_take]
    omega

/-- C1, at seven picks: the dashboard shows picks 0 to 4. -/
theorem dashboard_truncation_law_witness :
    (loadDashboardData (okGateway sevenPicks) DashboardState.init).state.userPicks
        = sevenPicks.take (min 5 sevenPicks.length) ∧
    (loadDashboardData (okGateway sevenPicks) DashboardState.init).state.userPicks.length = 5 ∧
    (loadDashboardData (okGateway sevenPicks) DashboardState.init).state.accuracyData
        = [sampleMetric] :=
  have h := dashboard_truncation_law (okGateway sevenPicks) DashboardState.init
    [sampleMetric] sevenPicks rfl rfl
  ⟨h.1, h.2.2.2.1 (by decide), h.2.2.2.2.2⟩

/-- C2, refuted as stated: accuracy metrics succeed with one metric, the picks call
fails, and the dashboard does not show the metric. -/
theorem dashboard_partial_failure_counterexample :
    (dashboardGateway (Except.ok [sampleMetric]) (Except.error networkError)).getAccuracyMetrics none
        = Except.ok [sampleMetric] ∧
    (dashboardGateway (Except.ok [sampleMetric]) (Except.error networkError)).getUserPicks
        = Except.error networkError ∧
    (loadDashboardData (dashboardGateway (Except.ok [sampleMetric]) (Except.error networkError))
        DashboardState.init).state.accuracyData = [] ∧
    (loadDashboardData (dashboardGateway (Except.ok [sampleMetric]) (Except.error networkError))
        DashboardState.init).state.accuracyData ≠ [sampleMetric] := by
  refine ⟨rfl, rfl, rfl, ?_⟩
  intro h
  cases h

/-- C2, amended. If exactly one of `getAccuracyMetrics` and `getUserPicks` fails,
`loadDashboardData` discards the result of the other: `accuracyData` and
`userPicks` both keep the values they had before the load. -/
theorem dashboard_one_failure_discards_other (api : Gateway) (st : DashboardState) :
    (∀ A e, api.getAccuracyMetrics none = Except.ok A → api.getUserPicks = Except.error e →
      (loadDashboardData api st).state.accuracyData = st.accuracyData ∧
      (loadDashboardData api st).state.userPicks = st.userPicks) ∧
    (∀ P e, api.getUserPicks = Except.ok P → api.getAccuracyMetrics none = Except.error e →
      (loadDashboardData api st).state.accuracyData = st.accuracyData ∧
      (loadDashboardData api st).state.userPicks = st.userPicks) := by
  constructor
  · intro A e hA hP
    simp [loadDashboardData, promiseAll, hA, hP]
  · intro P e hP hA
    simp [loadDashboardData, promiseAll, hA, hP]

/-- C2, amended, at a state showing two picks: a failed picks call leaves them and
the empty metric list in place although the metrics call succeeded. -/
theorem dashboard_one_failure_discards_other_witness :
    (loadDashboardData (dashboardGateway (Except.ok [sampleMetric]) (Except.error networkError))
      { accuracyData := [], userPicks := [samplePick 1, samplePick 2], loading := false }).state.accuracyData
        = [] ∧
    (loadDashboardData (dashboardGateway (Except.ok [sampleMetric]) (Except.error networkError))
      { accuracyData := [], userPicks := [samplePick 1, samplePick 2], loading := false }).state.userPicks
        = [samplePick 1, samplePick 2] :=
  (dashboard_one_failure_discards_other
    (dashboardGateway (Except.ok [sampleMetric]) (Except.error networkError))
    { accuracyData := [], userPicks := [samplePick 1, samplePick 2], loading := false }).1
    [sampleMetric] networkError rfl rfl

/-! ## Properties of `SportsPredictions.loadPredictions` under interleaving -/

/-- C3, refuted as stated: NFL is selected, then NHL; the NHL response arrives
first and the NFL response last. Once all loads have settled the page is on NHL
and shows the NFL predictions. -/
theorem last_trigger_wins_counterexample :
    (Page.mount.run (raceEvents.take 3)).inflight = ["americanfootball_nfl", "icehockey_nhl"] ∧
    (Page.mount.run raceEvents).inflight = [] ∧
    (Page.mount.run raceEvents).view.sport = "icehockey_nhl" ∧
    (Page.mount.run raceEvents).view.predictions = [sampleSports "nfl-1"] ∧
    (Page.mount.run raceEvents).view.predictions ≠ [sampleSports "nhl-1"] := by
  refine ⟨by decide, by decide, by decide, rfl, ?_⟩
  intro h
  have hid := congrArg (fun l => l.map SportsPrediction.event_id) h
  revert hid
  decide

/-- A run extended by one event is the run followed by that step. -/
theorem run_snoc (p : Page) (events : List Event) (ev : Event) :
    p.run (events ++ [ev]) = (p.run events).step ev := by
  simp [Page.run, List.foldl_append]

/-- A run extended by two events is the run followed by those two steps. -/
theorem run_snoc_two (p : Page) (events : List Event) (ev₁ ev₂ : Event) :
    p.run (events ++ [ev₁, ev₂]) = ((p.run events).step ev₁).step ev₂ := by
  simp [Page.run, List.foldl_append]

/-- The response of an in-flight load is applied to the view as it stands. -/
theorem step_settle (p : Page) (i : Nat)
    (outcome : Except GatewayError (List SportsPrediction)) (h : i < p.inflight.length) :
    p.step (Event.settle i outcome)
      = { p with view := loadPredictionsSettle p.view outcome
                 inflight := p.inflight.eraseIdx i } := by
  simp [Page.step, h]

/-- Selecting another sport starts a load for it. -/
theorem step_select (p : Page) (sport : String) (h : sport ≠ p.view.sport) :
    p.step (Event.selectSport sport)
      = { view := { sport := sport, predictions := [], loading := true, error := none }
          inflight := p.inflight ++ [sport]
          calls := p.calls ++ [GatewayCall.getSportsPredictions sport] } := by
  simp [Page.step, Page.trigger, loadPredictionsBegin, h]

/-- Refresh, when the button is enabled, starts a load for the current sport. -/
theorem step_refresh (p : Page) (h : p.view.loading = false) :
    p.step Event.refresh
      = { view := { sport := p.view.sport, predictions := [], loading := true, error := none }
          inflight := p.inflight ++ [p.view.sport]
          calls := p.calls ++ [GatewayCall.getSportsPredictions p.view.sport] } := by
  simp [Page.step, Page.trigger, loadPredictionsBegin, h]

/-- C3, amended. After any sequence of events, every response is applied to the
view when it resolves, whether or not a newer load has been triggered since: a
success `d` of any in-flight load sets `predictions` to `d`, clears `loading`
and leaves `error`; a failure sets `error` to its message, clears `loading`
and leaves `predictions`. So the last response to resolve wins. Every trigger
(another sport selected, or Refresh while not loading) issues one
`getSportsPredictions` call and resets the view to loading, empty list, no
error; selecting the current sport, or Refresh while loading, does nothing.
Hence the view is the outcome of the most recently triggered load alone when
that load was triggered with no other load in flight. -/
theorem last_resolution_wins (p : Page) (events : List Event) :
    (∀ i d, i < (p.run events).inflight.length →
      p.run (events ++ [Event.settle i (Except.ok d)])
        = { view := { sport := (p.run events).view.sport, predictions := d, loading := false
                      error := (p.run events).view.error }
            inflight := (p.run events).inflight.eraseIdx i
            calls := (p.run events).calls }) ∧
    (∀ i e, i < (p.run events).inflight.length →
      p.run (events ++ [Event.settle i (Except.error e)])
        = { view := { sport := (p.run events).view.sport
                      predictions := (p.run events).view.predictions
                      loading := false
                      error := some (orElse e.detail "Failed to load predictions") }
            inflight := (p.run events).inflight.eraseIdx i
            calls := (p.run events).calls }) ∧
    (∀ sport, sport ≠ (p.run events).view.sport →
      p.run (events ++ [Event.selectSport sport])
        = { view := { sport := sport, predictions := [], loading := true, error := none }
            inflight := (p.run events).inflight ++ [sport]
            calls := (p.run events).calls ++ [GatewayCall.getSportsPredictions sport] }) ∧
    ((p.run events).view.loading = false →
      p.run (events ++ [Event.refresh])
        = { view := { sport := (p.run events).view.sport, predictions := [], loading := true
                      error := none }
            inflight := (p.run events).inflight ++ [(p.run events).view.sport]
            calls := (p.run events).calls
              ++ [GatewayCall.getSportsPredictions (p.run events).view.sport] }) ∧
    (p.run (events ++ [Event.selectSport (p.run events).view.sport]) = p.run events) ∧
    ((p.run events).view.loading = true → p.run (events ++ [Event.refresh]) = p.run events) ∧
    (∀ sport, (p.run events).inflight = [] → sport ≠ (p.run events).view.sport →
      (∀ d, (p.run (events ++ [Event.selectSport sport, Event.settle 0 (Except.ok d)])).view
        = { sport := sport, predictions := d, loading := false, error := none }) ∧
      (∀ e, (p.run (events ++ [Event.selectSport sport, Event.settle 0 (Except.error e)])).view
        = { sport := sport, predictions := [], loading := false
            error := some (orElse e.detail "Failed to load predictions") })) ∧
    ((p.run events).inflight = [] → (p.run events).view.loading = false →
      (∀ d, (p.run (events ++ [Event.refresh, Event.settle 0 (Except.ok d)])).view
        = { sport := (p.run events).view.sport, predictions := d, loading := false
            error := none }) ∧
      (∀ e, (p.run (events ++ [Event.refresh, Event.settle 0 (Except.error e)])).view
        = { sport := (p.run events).view.sport, predictions := [], loading := false
            error := some (orElse e.detail "Failed to load predictions") })) := by
  refine ⟨?_, ?_, ?_, ?_, ?_, ?_, ?_, ?_⟩
  · intro i d hi
    rw [run_snoc, step_settle _ _ _ hi]
    rfl
  · intro i e hi
    rw [run_snoc, step_settle _ _ _ hi]
    rfl
  · intro sport hs
    rw [run_snoc, step_select _ _ hs]
  · intro hl
    rw [run_snoc, step_refresh _ hl]
  · rw [run_snoc]
    simp [Page.step]
  · intro hl
    rw [run_snoc]
    simp [Page.step, hl]
  · intro sport h0 hs
    constructor
    · intro d
      rw [run_snoc_two, step_select _ _ hs, step_settle _ _ _ (by simp [h0])]
      rfl
    · intro e
      rw [run_snoc_two, step_select _ _ hs, step_settle _ _ _ (by simp [h0])]
      rfl
  · intro h0 hl
    constructor
    · intro d
      rw [run_snoc_two, step_refresh _ hl, step_settle _ _ _ (by simp [h0])]
      rfl
    · intro e
      rw [run_snoc_two, step_refresh _ hl, step_settle _ _ _ (by simp [h0])]
      rfl

/-- C3, amended, on the two races and on loads that do not overlap: the late NFL
success replaces the NHL list; the late NFL failure puts its message beside the
NHL list; a sport selected, or Refresh clicked, with nothing in flight shows
exactly the outcome of its own load. -/
theorem last_resolution_wins_witness :
    (Page.mount.run (raceEvents.take 4 ++
      [Event.settle 0 (Except.ok [sampleSports "nfl-1"])])).view
        = { sport := "icehockey_nhl", predictions := [sampleSports "nfl-1"], loading := false
            error := none } ∧
    (Page.mount.run (staleFailureEvents.take 4 ++
      [Event.settle 0 (Except.error (httpError 503 (some "Odds provider down")))])).view
        = { sport := "icehockey_nhl", predictions := [sampleSports "nhl-1"], loading := false
            error := some "Odds provider down" } ∧
    (Page.mount.run (raceEvents.take 1 ++ [Event.selectSport "soccer_epl"])).view
        = { sport := "soccer_epl", predictions := [], loading := true, error := none } ∧
    (Page.mount.run (raceEvents.take 1 ++ [Event.refresh])).inflight = ["basketball_nba"] ∧
    (Page.mount.run ([] ++ [Event.refresh])) = Page.mount ∧
    (Page.mount.run (raceEvents.take 1 ++
      [Event.selectSport "soccer_epl", Event.settle 0 (Except.error networkError)])).view
        = { sport := "soccer_epl", predictions := [], loading := false
            error := some "Failed to load predictions" } ∧
    (Page.mount.run (raceEvents.take 1 ++
      [Event.refresh, Event.settle 0 (Except.ok [sampleSports "nba-2"])])).view
        = { sport := "basketball_nba", predictions := [sampleSports "nba-2"], loading := false
            error := none } :=
  have hrace := last_resolution_wins Page.mount (raceEvents.take 4)
  have hstale := last_resolution_wins Page.mount (staleFailureEvents.take 4)
  have hidle := last_resolution_wins Page.mount (raceEvents.take 1)
  have hmount := last_resolution_wins Page.mount []
  ⟨congrArg Page.view (hrace.1 0 [sampleSports "nfl-1"] (by decide)),
   congrArg Page.view (hstale.2.1 0 (httpError 503 (some "Odds provider down")) (by decide)),
   congrArg Page.view (hidle.2.2.1 "soccer_epl" (by decide)),
   congrArg Page.inflight (hidle.2.2.2.1 (by decide)),
   hmount.2.2.2.2.2.1 (by decide),
   (hidle.2.2.2.2.2.2.1 "soccer_epl" (by decide) (by decide)).2 networkError,
   (hidle.2.2.2.2.2.2.2 (by decide) (by decide)).1 [sampleSports "nba-2"]⟩

/-! ## Properties of `getApiClient` -/

/-- C4, refuted as stated: with an absent token, and with an empty one, the header
set of the client has the key `Authorization`, with the empty string as value. -/
theorem authorization_header_counterexample :
    (getApiClient none (constSupplier none) ()).1
        = Except.ok { baseURL := "http://localhost:8000"
                      headers := [("Content-Type", "application/json"), ("Authorization", "")] } ∧
    (getApiClient none (constSupplier (some "")) ()).1
        = Except.ok { baseURL := "http://localhost:8000"
                      headers := [("Content-Type", "application/json"), ("Authorization", "")] } ∧
    ApiClient.header { baseURL := "http://localhost:8000"
                       headers := [("Content-Type", "application/json"), ("Authorization", "")] }
        "Authorization" = some "" := by
  refine ⟨rfl, rfl, by decide⟩

/-- C4, amended. For every token the supplier returns, the client built by
`getApiClient` carries `Content-Type: application/json`; a non-empty token gives
`Authorization: Bearer <token>`; an empty or absent token gives an
`Authorization` header whose value is the empty string. -/
theorem client_headers {σ : Type} (VITE_API_URL : Option String) (getToken : TokenSupplier σ)
    (s s' : σ) (token : Option String) (h : getToken s = (Except.ok token, s')) :
    ∃ client, getApiClient VITE_API_URL getToken s = (Except.ok client, s') ∧
      client.header "Content-Type" = some "application/json" ∧
      (∀ t, token = some t → t ≠ "" → client.header "Authorization" = some ("Bearer " ++ t)) ∧
      (token = none ∨ token = some "" → client.header "Authorization" = some "") := by
  have hc : getApiClient VITE_API_URL getToken s =
      (Except.ok
        { baseURL := API_URL VITE_API_URL
          headers :=
            [("Content-Type", "application/json"),
             ("Authorization", authorizationValue token)] },
       s') := by
    simp only [getApiClient, h]
  refine ⟨_, hc, ?_, ?_, ?_⟩
  · simp [ApiClient.header]
  · intro t ht hne
    subst ht
    simp [ApiClient.header, authorizationValue, hne]
  · rintro (ht | ht) <;> subst ht <;> simp [ApiClient.header, authorizationValue]

/-- C4, amended, at the token `abc`: the client carries `Authorization: Bearer abc`. -/
theorem client_headers_witness :
    ∃ client, getApiClient none (constSupplier (some "abc")) () = (Except.ok client, ()) ∧
      client.header "Content-Type" = some "application/json" ∧
      client.header "Authorization" = some "Bearer abc" :=
  match client_headers none (constSupplier (some "abc")) () () (some "abc") rfl with
  | ⟨client, hc, hct, hauth, _⟩ => ⟨client, hc, hct, hauth "abc" rfl (by decide)⟩

/-! ## Properties of the stock page -/

/-- Trimming a blank string leaves the empty string. -/
theorem jsTrim_of_isBlank (s : String) (h : isBlank s) : jsTrim s = "" := by
  have hdrop : s.data.dropWhile isJsWhiteSpace = [] := by
    rw [List.dropWhile_eq_nil_iff]
    exact h
  simp [jsTrim, hdrop]

/-- A string whose trimmed form is empty is blank. -/
theorem isBlank_of_jsTrim (s : String) (h : jsTrim s = "") : isBlank s := by
  have hdata : ((s.data.dropWhile isJsWhiteSpace).reverse.dropWhile isJsWhiteSpace).reverse = [] :=
    congrArg String.data h
  rw [List.reverse_eq_nil_iff, List.dropWhile_eq_nil_iff] at hdata
  have hall : ∀ c ∈ s.data.dropWhile isJsWhiteSpace, isJsWhiteSpace c = true := by
    intro c hc
    exact hdata c (List.mem_reverse.mpr hc)
  have hnil : s.data.dropWhile isJsWhiteSpace = [] := by
    cases hd : s.data.dropWhile isJsWhiteSpace with
    | nil => rfl
    | cons a l =>
      have hhead := List.head_dropWhile_not isJsWhiteSpace s.data (by simp [hd])
      have ha : isJsWhiteSpace a = true := hall a (by simp [hd])
      simp [hd] at hhead
      simp [hhead] at ha
  exact List.dropWhile_eq_nil_iff.mp hnil

/-- C5. When `symbol` is empty or only white space, `handleSearch` issues no
gateway call and leaves the state (`prediction`, `error`, `loading`) as it was. -/
theorem blank_symbol_guard (toUpperCase : String → String) (api : Gateway) (st : StockState)
    (h : isBlank st.symbol) :
    (handleSearch toUpperCase api st).calls = [] ∧
    (handleSearch toUpperCase api st).state = st ∧
    (handleSearch toUpperCase api st).state.prediction = st.prediction ∧
    (handleSearch toUpperCase api st).state.error = st.error ∧
    (handleSearch toUpperCase api st).state.loading = st.loading := by
  have ht := jsTrim_of_isBlank st.symbol h
  simp [handleSearch, ht]

/-- C5, at the symbol of three spaces on a page that shows a prediction. -/
theorem blank_symbol_guard_witness :
    isBlank "   " ∧ isBlank "" ∧
    (handleSearch asciiUpper (failingGateway networkError)
      { symbol := "   ", prediction := some sampleStock, loading := false, error := none }).calls = [] ∧
    (handleSearch asciiUpper (failingGateway networkError)
      { symbol := "   ", prediction := some sampleStock, loading := false, error := none }).state
        = { symbol := "   ", prediction := some sampleStock, loading := false, error := none } :=
  have h := blank_symbol_guard asciiUpper (failingGateway networkError)
    { symbol := "   ", prediction := some sampleStock, loading := false, error := none } (by decide)
  ⟨by decide, by decide, h.1, h.2.1⟩

/-- C6. When the trimmed `symbol` is not empty, `handleSearch` issues exactly one
`getStockPrediction` call, on the upper-cased symbol, whatever the prior state and
whatever the outcome of the call; if the call succeeds with a prediction `d` the
page ends Loaded: `prediction = d`, no error, not loading, and when `d` is for
that symbol the shown symbol is the upper-cased input. -/
theorem stock_search_success (toUpperCase : String → String) (api : Gateway) (st : StockState)
    (hS : jsTrim st.symbol ≠ "") :
    (handleSearch toUpperCase api st).calls
        = [GatewayCall.getStockPrediction (toUpperCase st.symbol)] ∧
    (∀ d, api.getStockPrediction (toUpperCase st.symbol) = Except.ok d →
      (handleSearch toUpperCase api st).state
          = { symbol := st.symbol, prediction := some d, loading := false, error := none } ∧
      (d.symbol = toUpperCase st.symbol →
        (handleSearch toUpperCase api st).state.prediction.map StockPrediction.symbol
          = some (toUpperCase st.symbol))) := by
  refine ⟨by simp [handleSearch, hS], ?_⟩
  intro d hd
  refine ⟨by simp [handleSearch, hS, hd], ?_⟩
  intro hsym
  simp [handleSearch, hS, hd, hsym]

/-- C6, at the input `aapl` over a page left in the Failed state, with a gateway
that succeeds, and at the same input with a gateway that rejects: one call on
`AAPL` either way. -/
theorem stock_search_success_witness :
    (handleSearch asciiUpper (okGateway [])
      { symbol := "aapl", prediction := none, loading := false, error := some "old" }).calls
        = [GatewayCall.getStockPrediction "AAPL"] ∧
    (handleSearch asciiUpper (okGateway [])
      { symbol := "aapl", prediction := none, loading := false, error := some "old" }).state
        = { symbol := "aapl", prediction := some sampleStock, loading := false, error := none } ∧
    (handleSearch asciiUpper (okGateway [])
      { symbol := "aapl", prediction := none, loading := false, error := some "old" }).state.prediction.map
        StockPrediction.symbol = some "AAPL" ∧
    (handleSearch asciiUpper (failingGateway networkError) (stockPageWith "aapl")).calls
        = [GatewayCall.getStockPrediction "AAPL"] :=
  have h := stock_search_success asciiUpper (okGateway [])
    { symbol := "aapl", prediction := none, loading := false, error := some "old" } (by decide)
  have hf := stock_search_success asciiUpper (failingGateway networkError) (stockPageWith "aapl")
    (by decide)
  ⟨h.1, (h.2 sampleStock rfl).1, (h.2 sampleStock rfl).2 rfl, hf.1⟩

/-- C7, refuted as stated, on two counts. A failure whose `detail` field is
present and holds the empty string shows the fallback on the stock page and on
the sports page. And on the sports page a failure does not always leave an
empty list: NFL is selected, then NHL; the NHL load succeeds, the NFL load
fails afterwards, and the page shows the NHL list beside the NFL error. -/
theorem failure_detail_counterexample :
    (httpError 500 (some "")).detail = some "" ∧
    (handleSearch asciiUpper (failingGateway (httpError 500 (some ""))) (stockPageWith "AAPL")).state.error
        = some "Failed to get prediction" ∧
    (handleSearch asciiUpper (failingGateway (httpError 500 (some ""))) (stockPageWith "AAPL")).state.error
        ≠ (httpError 500 (some "")).detail ∧
    (Page.mount.step (Event.settle 0 (Except.error (httpError 500 (some ""))))).view.error
        = some "Failed to load predictions" ∧
    (Page.mount.step (Event.settle 0 (Except.error (httpError 500 (some ""))))).view.error
        ≠ (httpError 500 (some "")).detail ∧
    (Page.mount.run staleFailureEvents).inflight = [] ∧
    (Page.mount.run staleFailureEvents).view.error = some "Odds provider down" ∧
    (Page.mount.run staleFailureEvents).view.predictions = [sampleSports "nhl-1"] ∧
    (Page.mount.run staleFailureEvents).view.predictions ≠ [] := by
  refine ⟨by decide, by decide, by decide, by decide, by decide, by decide, by decide, rfl, ?_⟩
  intro h
  have hlen := congrArg List.length h
  revert hlen
  decide

/-- C7, amended. A gateway failure `e` during a stock search or a sports load is
caught by the handler, which settles normally with `loading = false` and an
error message: `e`'s `detail` when that field is present and not the empty
string, and the fallback of the operation when it is absent or empty. After a
failed stock search there is no prediction. After a failed sports load the list
is what it was when the failure resolved: whatever page the failure meets, it
leaves `predictions` untouched, so the list is empty when the failure is the
first response to resolve after a trigger. -/
theorem failure_message_extraction (toUpperCase : String → String) (api : Gateway)
    (e : GatewayError) :
    (∀ st : StockState, jsTrim st.symbol ≠ "" →
      api.getStockPrediction (toUpperCase st.symbol) = Except.error e →
      (handleSearch toUpperCase api st).state.loading = false ∧
      (handleSearch toUpperCase api st).state.prediction = none ∧
      (∀ d, e.detail = some d → d ≠ "" → (handleSearch toUpperCase api st).state.error = some d) ∧
      (e.detail = none ∨ e.detail = some "" →
        (handleSearch toUpperCase api st).state.error = some "Failed to get prediction")) ∧
    (∀ (p : Page) (i : Nat), i < p.inflight.length →
      (p.step (Event.settle i (Except.error e))).view.loading = false ∧
      (p.step (Event.settle i (Except.error e))).view.predictions = p.view.predictions ∧
      (∀ d, e.detail = some d → d ≠ "" →
        (p.step (Event.settle i (Except.error e))).view.error = some d) ∧
      (e.detail = none ∨ e.detail = some "" →
        (p.step (Event.settle i (Except.error e))).view.error
          = some "Failed to load predictions")) ∧
    (∀ (p : Page) (i : Nat) (sport : String), sport ≠ p.view.sport → i ≤ p.inflight.length →
      ((p.step (Event.selectSport sport)).step (Event.settle i (Except.error e))).view.predictions
        = [] ∧
      ((p.step (Event.selectSport sport)).step (Event.settle i (Except.error e))).view.loading
        = false) ∧
    (∀ (p : Page) (i : Nat), p.view.loading = false → i ≤ p.inflight.length →
      ((p.step Event.refresh).step (Event.settle i (Except.error e))).view.predictions = [] ∧
      ((p.step Event.refresh).step (Event.settle i (Except.error e))).view.loading = false) := by
  refine ⟨?_, ?_, ?_, ?_⟩
  · intro st hS he
    refine ⟨?_, ?_, ?_, ?_⟩
    · simp [handleSearch, hS, he]
    · simp [handleSearch, hS, he]
    · intro d hd hne
      simp [handleSearch, hS, he, hd, orElse, hne]
    · rintro (hd | hd) <;> simp [handleSearch, hS, he, hd, orElse]
  · intro p i hi
    rw [step_settle _ _ _ hi]
    refine ⟨rfl, rfl, ?_, ?_⟩
    · intro d hd hne
      simp [loadPredictionsSettle, hd, orElse, hne]
    · rintro (hd | hd) <;> simp [loadPredictionsSettle, hd, orElse]
  · intro p i sport hs hi
    rw [step_select _ _ hs, step_settle _ _ _ (by simp; omega)]
    exact ⟨rfl, rfl⟩
  · intro p i hl hi
    rw [step_refresh _ hl, step_settle _ _ _ (by simp; omega)]
    exact ⟨rfl, rfl⟩

/-- C7, amended, at a 404 whose body says `Symbol not found` (stock search), at a
transport failure meeting the freshly mounted sports page, and at the late NFL
failure, which leaves the NHL list in place. -/
theorem failure_message_extraction_witness :
    (handleSearch asciiUpper (failingGateway (httpError 404 (some "Symbol not found")))
      (stockPageWith "zzzz")).state.error = some "Symbol not found" ∧
    (Page.mount.step (Event.settle 0 (Except.error networkError))).view.error
      = some "Failed to load predictions" ∧
    (Page.mount.step (Event.settle 0 (Except.error networkError))).view.predictions = [] ∧
    ((Page.mount.run (staleFailureEvents.take 4)).step
      (Event.settle 0 (Except.error (httpError 503 (some "Odds provider down"))))).view.predictions
      = [sampleSports "nhl-1"] ∧
    (((Page.mount.run (staleFailureEvents.take 1)).step Event.refresh).step
      (Event.settle 0 (Except.error networkError))).view.predictions = [] ∧
    (((Page.mount.run (staleFailureEvents.take 1)).step (Event.selectSport "soccer_epl")).step
      (Event.settle 0 (Except.error networkError))).view.predictions = [] :=
  ⟨((failure_message_extraction asciiUpper
        (failingGateway (httpError 404 (some "Symbol not found")))
        (httpError 404 (some "Symbol not found"))).1
      (stockPageWith "zzzz") (by decide) rfl).2.2.1 "Symbol not found" rfl (by decide),
   ((failure_message_extraction asciiUpper (failingGateway networkError) networkError).2.1
      Page.mount 0 (by decide)).2.2.2 (Or.inl rfl),
   ((failure_message_extraction asciiUpper (failingGateway networkError) networkError).2.1
      Page.mount 0 (by decide)).2.1,
   ((failure_message_extraction asciiUpper (failingGateway networkError)
        (httpError 503 (some "Odds provider down"))).2.1
      (Page.mount.run (staleFailureEvents.take 4)) 0 (by decide)).2.1,
   ((failure_message_extraction asciiUpper (failingGateway networkError) networkError).2.2.2
      (Page.mount.run (staleFailureEvents.take 1)) 0 (by decide) (by decide)).1,
   ((failure_message_extraction asciiUpper (failingGateway networkError) networkError).2.2.1
      (Page.mount.run (staleFailureEvents.take 1)) 0 "soccer_epl" (by decide) (by decide)).1⟩

/-- C8. When no prediction is Loaded (`prediction` is null), `handleSavePick` makes
no gateway call, raises no notification and leaves the state unchanged. -/
theorem save_pick_guard (api : Gateway) (st : StockState) (h : st.prediction = none) :
    (StockPredictions.handleSavePick api st).calls = [] ∧
    (StockPredictions.handleSavePick api st).alerts = [] ∧
    (StockPredictions.handleSavePick api st).state = st := by
  simp [StockPredictions.handleSavePick, h]

/-- C8, on a page in the Failed state. -/
theorem save_pick_guard_witness :
    (StockPredictions.handleSavePick (okGateway [])
      { symbol := "AAPL", prediction := none, loading := false, error := some "Not found" }).calls = [] ∧
    (StockPredictions.handleSavePick (okGateway [])
      { symbol := "AAPL", prediction := none, loading := false, error := some "Not found" }).alerts = [] ∧
    (StockPredictions.handleSavePick (okGateway [])
      { symbol := "AAPL", prediction := none, loading := false, error := some "Not found" }).state
        = { symbol := "AAPL", prediction := none, loading := false, error := some "Not found" } :=
  save_pick_guard (okGateway [])
    { symbol := "AAPL", prediction := none, loading := false, error := some "Not found" } rfl

/-- C9. With a Loaded prediction `p`, `handleSavePick` calls `savePick` exactly once,
with the payload of type `stock`, `symbol_or_event = p.symbol`, `prediction = p`
and `confidence = p.confidence`; whether the call succeeds or fails the state
is the same after as before, and the outcome is reported by one notification. -/
theorem save_pick_payload_and_frame (api : Gateway) (st : StockState) (p : StockPrediction)
    (h : st.prediction = some p) :
    (StockPredictions.handleSavePick api st).calls
        = [GatewayCall.savePick
            { prediction_type := "stock", symbol_or_event := p.symbol
              prediction := Prediction.stock p, confidence := p.confidence }] ∧
    (StockPredictions.handleSavePick api st).state = st ∧
    (∀ r, api.savePick (stockPick p) = Except.ok r →
      (StockPredictions.handleSavePick api st).alerts = ["Pick saved successfully!"]) ∧
    (∀ e, api.savePick (stockPick p) = Except.error e →
      (StockPredictions.handleSavePick api st).alerts = ["Failed to save pick"]) := by
  refine ⟨?_, ?_, ?_, ?_⟩
  · simp only [StockPredictions.handleSavePick, h]
    cases api.savePick (stockPick p) <;> rfl
  · simp only [StockPredictions.handleSavePick, h]
    cases api.savePick (stockPick p) <;> rfl
  · intro r hr
    simp [StockPredictions.handleSavePick, h, hr]
  · intro e he
    simp [StockPredictions.handleSavePick, h, he]

/-- C9, on a page showing the AAPL prediction, with a gateway that rejects. -/
theorem save_pick_payload_and_frame_witness :
    (StockPredictions.handleSavePick (failingGateway networkError)
      { symbol := "aapl", prediction := some sampleStock, loading := false, error := none }).calls
        = [GatewayCall.savePick
            { prediction_type := "stock", symbol_or_event := "AAPL"
              prediction := Prediction.stock sampleStock, confidence := 41 / 50 }] ∧
    (StockPredictions.handleSavePick (failingGateway networkError)
      { symbol := "aapl", prediction := some sampleStock, loading := false, error := none }).state
        = { symbol := "aapl", prediction := some sampleStock, loading := false, error := none } ∧
    (StockPredictions.handleSavePick (failingGateway networkError)
      { symbol := "aapl", prediction := some sampleStock, loading := false, error := none }).alerts
        = ["Failed to save pick"] :=
  have h := save_pick_payload_and_frame (failingGateway networkError)
    { symbol := "aapl", prediction := some sampleStock, loading := false, error := none }
    sampleStock rfl
  ⟨h.1, h.2.1, h.2.2.2 networkError rfl⟩

/-! ## Properties of `api.getAccuracyMetrics` -/

/-- A filtered accuracy URL is never the unfiltered one. -/
theorem filtered_url_ne_unfiltered (t : String) :
    "/analytics/accuracy?prediction_type=" ++ t ≠ "/analytics/accuracy" := by
  intro h
  have hlen := congrArg String.length h
  rw [String.length_append] at hlen
  have h1 : String.length "/analytics/accuracy?prediction_type=" = 36 := by decide
  have h2 : String.length "/analytics/accuracy" = 19 := by decide
  omega

/-- C10, refuted as stated: the empty string is a non-null prediction type, and
`getAccuracyMetrics` requests the unfiltered URL for it. -/
theorem accuracy_url_counterexample :
    ((api.getAccuracyMetrics none metricsHttp (some "") (constSupplier (some "tok")) ()).requests.map
        HttpRequest.url) = ["/analytics/accuracy"] ∧
    ((api.getAccuracyMetrics none metricsHttp (some "") (constSupplier (some "tok")) ()).requests.map
        HttpRequest.url) ≠ ["/analytics/accuracy?prediction_type=" ++ ""] := by
  refine ⟨by decide, by decide⟩

/-- C10, amended. Once the client is built, `getAccuracyMetrics` issues one
request: to `/analytics/accuracy?prediction_type=<predictionType>` if and only
if a non-empty type is supplied, and to the unfiltered `/analytics/accuracy`
exactly when the type is null, omitted or the empty string. -/
theorem accuracy_request_url {ρ σ : Type} (VITE_API_URL : Option String)
    (http : HttpRequest → Except GatewayError ρ) (predictionType : Option String)
    (getToken : TokenSupplier σ) (s s' : σ) (token : Option String)
    (h : getToken s = (Except.ok token, s')) :
    (∀ t, (api.getAccuracyMetrics VITE_API_URL http predictionType getToken s).requests.map
        HttpRequest.url = ["/analytics/accuracy?prediction_type=" ++ t]
      ↔ predictionType = some t ∧ t ≠ "") ∧
    ((api.getAccuracyMetrics VITE_API_URL http predictionType getToken s).requests.map
        HttpRequest.url = ["/analytics/accuracy"]
      ↔ predictionType = none ∨ predictionType = some "") := by
  have hreq : (api.getAccuracyMetrics VITE_API_URL http predictionType getToken s).requests.map
      HttpRequest.url = [accuracyUrl predictionType] := by
    simp [api.getAccuracyMetrics, callApi, getApiClient, h]
  rw [hreq]
  have happ : ∀ a b : String, "/analytics/accuracy?prediction_type=" ++ a
      = "/analytics/accuracy?prediction_type=" ++ b → a = b := by
    intro a b hab
    have hd := congrArg String.data hab
    simp only [String.data_append] at hd
    exact String.ext (List.append_cancel_left hd)
  constructor
  · intro t
    constructor
    · intro hu
      cases predictionType with
      | none =>
        simp only [accuracyUrl, List.cons.injEq, and_true] at hu
        exact absurd hu.symm (filtered_url_ne_unfiltered t)
      | some u =>
        by_cases hu0 : u = ""
        · subst hu0
          simp only [accuracyUrl, List.cons.injEq, and_true] at hu
          exact absurd hu.symm (filtered_url_ne_unfiltered t)
        · simp only [accuracyUrl, bne_iff_ne, ne_eq, hu0, not_false_eq_true, if_true,
            List.cons.injEq, and_true] at hu
          have hut := happ u t hu
          subst hut
          exact ⟨rfl, hu0⟩
    · rintro ⟨hp, hne⟩
      subst hp
      simp [accuracyUrl, hne]
  · constructor
    · intro hu
      cases predictionType with
      | none => exact Or.inl rfl
      | some u =>
        by_cases hu0 : u = ""
        · subst hu0
          exact Or.inr rfl
        · simp only [accuracyUrl, bne_iff_ne, ne_eq, hu0, not_false_eq_true, if_true,
            List.cons.injEq, and_true] at hu
          exact absurd hu (filtered_url_ne_unfiltered u)
    · rintro (hp | hp) <;> subst hp <;> simp [accuracyUrl]

/-- C10, amended, at the type `stock`: the filtered URL is requested. -/
theorem accuracy_request_url_witness :
    (api.getAccuracyMetrics none metricsHttp (some "stock") (constSupplier (some "tok")) ()).requests.map
        HttpRequest.url = ["/analytics/accuracy?prediction_type=" ++ "stock"] ∧
    (api.getAccuracyMetrics none metricsHttp none (constSupplier none) ()).requests.map
        HttpRequest.url = ["/analytics/accuracy"] :=
  ⟨(((accuracy_request_url none metricsHttp (some "stock") (constSupplier (some "tok")) () ()
        (some "tok") rfl).1 "stock").mpr ⟨rfl, by decide⟩),
   (accuracy_request_url none metricsHttp none (constSupplier none) () () none rfl).2.mpr
      (Or.inl rfl)⟩

/-! ## Credential resolution in the gateway operations -/

/-- An operation whose token fetch fulfils issues one request on the client built
from that token and leaves the supplier as that one fetch left it. -/
theorem perform_of_token {ρ σ : Type} (VITE_API_URL : Option String)
    (http : HttpRequest → Except GatewayError ρ) (op : Operation)
    (getToken : TokenSupplier σ) (s s' : σ) (token : Option String)
    (h : getToken s = (Except.ok token, s')) :
    (api.perform VITE_API_URL http op getToken s).authorizations
        = [some (authorizationValue token)] ∧
    (api.perform VITE_API_URL http op getToken s).supplier = s' := by
  cases op <;>
    simp [api.perform, api.getStockPrediction, api.getSportsPredictions, api.savePick,
      api.getUserPicks, api.getAccuracyMetrics, callApi, getApiClient, h,
      GatewayRun.authorizations, ApiClient.header]

/-- An operation whose token fetch rejects settles with that rejection and issues
no request. -/
theorem perform_of_rejection {ρ σ : Type} (VITE_API_URL : Option String)
    (http : HttpRequest → Except GatewayError ρ) (op : Operation)
    (getToken : TokenSupplier σ) (s s' : σ) (e : GatewayError)
    (h : getToken s = (Except.error e, s')) :
    (api.perform VITE_API_URL http op getToken s).result = Except.error e ∧
    (api.perform VITE_API_URL http op getToken s).requests = [] ∧
    (api.perform VITE_API_URL http op getToken s).supplier = s' := by
  cases op <;>
    simp [api.perform, api.getStockPrediction, api.getSportsPredictions, api.savePick,
      api.getUserPicks, api.getAccuracyMetrics, callApi, getApiClient, h]

/-- C11. Each gateway operation invokes the token supplier exactly once and sends
the credential of that invocation: the request carries the `Authorization` value
built from the token just obtained (`Bearer <token>` for a non-empty token). So
when the supplier returns `t₁` and then `t₂` over two successive operations, the
first request carries `t₁` and the second `t₂`. If the supplier rejects, the
operation rejects with the same error and issues no HTTP request. -/
theorem credential_resolved_per_call {ρ₁ ρ₂ σ : Type} (VITE_API_URL : Option String)
    (http₁ : HttpRequest → Except GatewayError ρ₁) (http₂ : HttpRequest → Except GatewayError ρ₂)
    (op₁ op₂ : Operation) (getToken : TokenSupplier σ) (s : σ) (n : Nat) :
    (api.perform VITE_API_URL http₁ op₁ (counting getToken) (s, n)).supplier
        = ((getToken s).2, n + 1) ∧
    (∀ token s', getToken s = (Except.ok token, s') →
      (api.perform VITE_API_URL http₁ op₁ getToken s).authorizations
          = [some (authorizationValue token)] ∧
      (∀ t, token = some t → t ≠ "" →
        (api.perform VITE_API_URL http₁ op₁ getToken s).authorizations
          = [some ("Bearer " ++ t)])) ∧
    (∀ t₁ t₂ s₁ s₂, getToken s = (Except.ok t₁, s₁) → getToken s₁ = (Except.ok t₂, s₂) →
      (api.perform VITE_API_URL http₁ op₁ getToken s).authorizations
          = [some (authorizationValue t₁)] ∧
      (api.perform VITE_API_URL http₂ op₂ getToken
          (api.perform VITE_API_URL http₁ op₁ getToken s).supplier).authorizations
          = [some (authorizationValue t₂)]) ∧
    (∀ e s', getToken s = (Except.error e, s') →
      (api.perform VITE_API_URL http₁ op₁ getToken s).result = Except.error e ∧
      (api.perform VITE_API_URL http₁ op₁ getToken s).requests = []) := by
  refine ⟨?_, ?_, ?_, ?_⟩
  · rcases h : getToken s with ⟨r, s'⟩
    cases r with
    | error e =>
      have hc : counting getToken (s, n) = (Except.error e, (s', n + 1)) := by
        simp [counting, h]
      exact (perform_of_rejection VITE_API_URL http₁ op₁ (counting getToken) (s, n) (s', n + 1)
        e hc).2.2
    | ok token =>
      have hc : counting getToken (s, n) = (Except.ok token, (s', n + 1)) := by
        simp [counting, h]
      exact (perform_of_token VITE_API_URL http₁ op₁ (counting getToken) (s, n) (s', n + 1)
        token hc).2
  · intro token s' h
    have hp := perform_of_token VITE_API_URL http₁ op₁ getToken s s' token h
    refine ⟨hp.1, ?_⟩
    intro t ht hne
    rw [hp.1, ht]
    simp [authorizationValue, hne]
  · intro t₁ t₂ s₁ s₂ h₁ h₂
    have hp := perform_of_token VITE_API_URL http₁ op₁ getToken s s₁ t₁ h₁
    refine ⟨hp.1, ?_⟩
    rw [hp.2]
    exact (perform_of_token VITE_API_URL http₂ op₂ getToken s₁ s₂ t₂ h₂).1
  · intro e s' h
    have hp := perform_of_rejection VITE_API_URL http₁ op₁ getToken s s' e h
    exact ⟨hp.1, hp.2.1⟩

/-- C11, on a session that hands out `t1` and then `t2`: a stock lookup followed by
a picks listing send `Bearer t1` and then `Bearer t2`; on a session with no token
left the lookup rejects and sends nothing. -/
theorem credential_resolved_per_call_witness :
    (api.perform none metricsHttp (Operation.getStockPrediction "AAPL") scriptedSupplier
        [some "t1", some "t2"]).authorizations = [some "Bearer t1"] ∧
    (api.perform none metricsHttp Operation.getUserPicks scriptedSupplier
        (api.perform none metricsHttp (Operation.getStockPrediction "AAPL") scriptedSupplier
          [some "t1", some "t2"]).supplier).authorizations = [some "Bearer t2"] ∧
    (api.perform none metricsHttp (Operation.getStockPrediction "AAPL") scriptedSupplier
        []).requests = [] ∧
    (api.perform none metricsHttp (Operation.getStockPrediction "AAPL")
        (counting scriptedSupplier) ([some "t1", some "t2"], 0)).supplier.2 = 1 :=
  have h := credential_resolved_per_call none metricsHttp metricsHttp
    (Operation.getStockPrediction "AAPL") Operation.getUserPicks scriptedSupplier
    [some "t1", some "t2"] 0
  have h0 := credential_resolved_per_call none metricsHttp metricsHttp
    (Operation.getStockPrediction "AAPL") Operation.getUserPicks scriptedSupplier [] 0
  ⟨(h.2.1 (some "t1") [some "t2"] rfl).2 "t1" rfl (by decide),
   (h.2.2.1 (some "t1") (some "t2") [some "t2"] [] rfl rfl).2,
   (h0.2.2.2 { message := "No session", response := none } [] rfl).2,
   congrArg Prod.snd h.1⟩

/-! ## All-or-nothing dashboard load -/

/-- C12. Whatever the outcomes of `getAccuracyMetrics` and `getUserPicks`,
`loadDashboardData` ends with `loading = false`. When both succeed, `accuracyData`
and `userPicks` are both updated (to the metrics and to the first five picks);
when at least one fails, both keep the values they had before the load. -/
theorem dashboard_all_or_nothing (api : Gateway) (st : DashboardState) :
    (loadDashboardData api st).state.loading = false ∧
    (∀ A P, api.getAccuracyMetrics none = Except.ok A → api.getUserPicks = Except.ok P →
      (loadDashboardData api st).state.accuracyData = A ∧
      (loadDashboardData api st).state.userPicks = P.take 5) ∧
    ((∃ e, api.getAccuracyMetrics none = Except.error e) ∨ (∃ e, api.getUserPicks = Except.error e) →
      (loadDashboardData api st).state.accuracyData = st.accuracyData ∧
      (loadDashboardData api st).state.userPicks = st.userPicks) := by
  refine ⟨rfl, ?_, ?_⟩
  · intro A P hA hP
    simp [loadDashboardData, promiseAll, hA, hP]
  · rintro (⟨e, he⟩ | ⟨e, he⟩)
    · simp [loadDashboardData, promiseAll, he]
    · cases hA : api.getAccuracyMetrics none with
      | error e' => simp [loadDashboardData, promiseAll, hA]
      | ok A => simp [loadDashboardData, promiseAll, hA, he]

/-- C12, on a dashboard showing one metric and one pick: a reload on which both
calls fail leaves both in place and clears `loading`; a reload on which both
succeed replaces both. -/
theorem dashboard_all_or_nothing_witness :
    (loadDashboardData (failingGateway networkError)
      { accuracyData := [sampleMetric], userPicks := [samplePick 9], loading := false }).state.loading
        = false ∧
    (loadDashboardData (failingGateway networkError)
      { accuracyData := [sampleMetric], userPicks := [samplePick 9], loading := false }).state.accuracyData
        = [sampleMetric] ∧
    (loadDashboardData (failingGateway networkError)
      { accuracyData := [sampleMetric], userPicks := [samplePick 9], loading := false }).state.userPicks
        = [samplePick 9] ∧
    (loadDashboardData (okGateway sevenPicks)
      { accuracyData := [], userPicks := [samplePick 9], loading := false }).state.userPicks
        = sevenPicks.take 5 :=
  have h := dashboard_all_or_nothing (failingGateway networkError)
    { accuracyData := [sampleMetric], userPicks := [samplePick 9], loading := false }
  have hk := h.2.2 (Or.inl ⟨networkError, rfl⟩)
  have hok := dashboard_all_or_nothing (okGateway sevenPicks)
    { accuracyData := [], userPicks := [samplePick 9], loading := false }
  ⟨h.1, hk.1, hk.2, (hok.2.1 [sampleMetric] sevenPicks rfl rfl).2⟩

end Predict
